/-
Verification of the deployment-orchestration core of a GPU fleet manager
(pod manager): cost estimation, scale-up/scale-down coordinators, the
rolling-deploy state machine with health checks, grace-period draining,
cancellation and rollback, and the history journal's compaction policy.

The Python source (`pod_manager.py`, `models.py`) is embedded shallowly:
  * pure functions become Lean functions over `Rat` / `Nat` / `String`;
  * the Fleet API client is an environment of oracles giving the outcome
    of each network call (`Except String _`, mirroring `RunPodError`);
  * every client call and every callback invocation is recorded in a
    trace of `Event`s, so that "pod X was terminated" or "onProgress
    fired with (a, b)" are statements about the trace;
  * the shared cancellation flag is modelled by oracles giving the value
    the flag has at each of the well-defined points where the source
    reads it (top of the per-pod loop, each health-check poll, each
    grace-countdown iteration, and once after the countdown loop); the
    flag in the source is monotone within one deploy (reset at start,
    only ever set by `cancel_deploy`), which theorems assume where needed;
  * `asyncio.gather` in scale-down is modelled by a completion-order
    list: tasks finish in the order given, each contributing its events;
  * random deploy ids, timestamps and durations are outside the model;
  * journal file writes are modelled at the line level (the `OSError`
    swallowing of `_record_deploy` is not modelled: the journal is a
    Lean list and appends always succeed).
-/
import Mathlib

namespace PodManager

/-! ## Data model (models.py) -/

/-- A pod, `models.Pod`, restricted to the fields the orchestration core
reads.  `runtimeUptime = none` models `runtime is None`; `some u` models a
`PodRuntime` with `uptime_seconds = u`. -/
structure Pod where
  id : String
  name : String
  imageName : String := ""
  desiredStatus : String := ""
  gpuCount : Nat := 0
  gpuDisplayName : String := ""
  volumeInGb : Nat := 0
  containerDiskInGb : Nat := 0
  volumeMountPath : String := "/workspace"
  runtimeUptime : Option Nat := none
  env : List String := []
  portsConfig : String := ""
  deriving Repr, DecidableEq

/-- `models.GpuType`, restricted to the pricing fields.  Python floats are
modelled as rationals. -/
structure GpuType where
  id : String
  displayName : String
  securePrice : Rat := 0
  communityPrice : Rat := 0
  deriving Repr, DecidableEq

/-- `GpuType.lowest_price`:
`prices = [p for p in [community_price, secure_price] if p > 0];
 return min(prices) if prices else 0.0`. -/
def GpuType.lowestPrice (g : GpuType) : Rat :=
  if 0 < g.communityPrice then
    if 0 < g.securePrice then min g.communityPrice g.securePrice
    else g.communityPrice
  else
    if 0 < g.securePrice then g.securePrice else 0

/-! ## Cost estimation (`PodManager.estimate_cost`) -/

/-- Result of `estimate_cost`: the dict
`{per_pod_hr, total_hr, total_period}`. -/
structure CostEstimate where
  perPodHr : Rat
  totalHr : Rat
  totalPeriod : Rat
  deriving Repr, DecidableEq

/-- `PodManager.estimate_cost(gpu_type, gpu_count, pod_count, cloud_type,
hours)`. -/
def estimate_cost (gpuType : GpuType) (gpuCount podCount : Nat)
    (cloudType : String) (hours : Rat) : CostEstimate :=
  let price :=
    if cloudType = "COMMUNITY" then gpuType.communityPrice
    else if cloudType = "SECURE" then gpuType.securePrice
    else gpuType.lowestPrice
  let perPodHr := price * gpuCount
  let totalHr := perPodHr * podCount
  { perPodHr := perPodHr, totalHr := totalHr, totalPeriod := totalHr * hours }

/-! ## History journal compaction (`PodManager.truncate_history`) -/

/-- Python's `lines[-keep:]`: the last `keep` elements — except that for
`keep = 0` the slice `lines[-0:]` is `lines[0:]`, the whole list. -/
def pyLastSlice (lines : List String) (keep : Nat) : List String :=
  if keep = 0 then lines else lines.drop (lines.length - keep)

/-- `PodManager.truncate_history(keep)` at the level of the file's line
list: `if len(lines) > keep * 2: rewrite to lines[-keep:]`, else leave the
file untouched. -/
def truncate_history (lines : List String) (keep : Nat) : List String :=
  if keep * 2 < lines.length then pyLastSlice lines keep else lines

/-! ## Observable events

Every Fleet API call and every callback invocation made by an operation is
recorded, in program order, as one `Event`.  `createPod` records the
identifying arguments of the call (the remaining clone arguments — disks,
mount path, ports, env — are passed by the source but not needed by any
claim). -/

/-- One observable action of an orchestration operation. -/
inductive Event where
  | createPod (name imageName gpuTypeId : String) (gpuCount : Nat)
  | getPod (podId : String)
  | stopPod (podId : String)
  | terminatePod (podId : String)
  | resumePod (podId : String) (gpuCount : Nat)
  | stateChange (oldId state newId : String)
  | progress (done total : Nat)
  | countdown (remaining : Nat)
  deriving Repr, DecidableEq

/-- The fields of `models.DeployRecord` that the orchestration core
writes (generated ids, timestamps and wall-clock durations are outside
the model). -/
structure DeployRecord where
  action : String
  status : String
  oldImage : String := ""
  newImage : String := ""
  podCount : Nat := 0
  podIds : List String := []
  error : String := ""
  notes : String := ""
  deriving Repr, DecidableEq

/-- Whether a character list starts with the given pattern list. -/
def charsStartWith : List Char → List Char → Bool
  | _, [] => true
  | [], _ :: _ => false
  | c :: cs, p :: ps => (c == p) && charsStartWith cs ps

/-- Whether a character list contains the pattern list as a contiguous
sublist. -/
def charsContain : List Char → List Char → Bool
  | [], pat => pat.isEmpty
  | c :: cs, pat => charsStartWith (c :: cs) pat || charsContain cs pat

/-- Python's `str.lower()` (over the character sequence). -/
def pyLower (s : String) : String := ⟨s.data.map Char.toLower⟩

/-- Python's `pat in s` substring test. -/
def containsSub (s pat : String) : Bool := charsContain s.data pat.data

/-! ## Scale up (`PodManager.scale_up`) -/

/-- The capacity-exhaustion marker `scale_up` looks for in failure
messages (against the lower-cased message). -/
def capacityMsg : String := "no longer any instances available"

/-- Outcomes of the Fleet API calls a `scale_up` run makes:
`createPod i` is the result of the creation attempt for index `i`. -/
structure ScaleUpEnv where
  createPod : Nat → Except String Pod

/-- Result of a `scale_up` run: the final record, the pods actually
created, the per-index error messages, the event trace, and the journal
after the record is appended. -/
structure ScaleUpResult where
  record : DeployRecord
  created : List Pod
  errors : List String
  trace : List Event
  journal : List DeployRecord

/-- The `for i in range(count)` loop of `scale_up`: sequential creations,
`on_progress(i+1, count)` after each success, error recorded per index on
failure, early `break` (with the "Stopped after K/N" note) when the
failure message contains the capacity marker. -/
def scaleUpGo (env : ScaleUpEnv) (namePref deployId imageName gpuTypeId : String)
    (gpuCount count : Nat) (i : Nat) (created : List Pod) (errors : List String)
    (trace : List Event) : List Pod × List String × List Event :=
  if i < count then
    let name := namePref ++ "-" ++ deployId ++ "-" ++ toString i
    let trace := trace ++ [Event.createPod name imageName gpuTypeId gpuCount]
    match env.createPod i with
    | .ok pod =>
        scaleUpGo env namePref deployId imageName gpuTypeId gpuCount count
          (i + 1) (created ++ [pod]) errors
          (trace ++ [Event.progress (i + 1) count])
    | .error e =>
        let errors := errors ++ ["Pod " ++ toString (i + 1) ++ ": " ++ e]
        if containsSub (pyLower e) capacityMsg then
          (created,
           errors ++ ["Stopped after " ++ toString created.length ++ "/" ++
             toString count ++ " — no GPUs available"],
           trace)
        else
          scaleUpGo env namePref deployId imageName gpuTypeId gpuCount count
            (i + 1) created errors trace
  else (created, errors, trace)
termination_by count - i

/-- `PodManager.scale_up(count, name_prefix, image_name, gpu_type_id,
gpu_count, ...)`, with the Fleet API abstracted by `env` and the journal
passed explicitly. -/
def scale_up (env : ScaleUpEnv) (count : Nat)
    (namePref deployId imageName gpuTypeId : String) (gpuCount : Nat)
    (journal : List DeployRecord) : ScaleUpResult :=
  let r := scaleUpGo env namePref deployId imageName gpuTypeId gpuCount count
    0 [] [] []
  let created := r.1
  let errors := r.2.1
  let record : DeployRecord :=
    { action := "scale_up",
      newImage := imageName,
      podIds := created.map Pod.id,
      podCount := created.length,
      error := if errors.isEmpty then "" else String.intercalate "; " errors,
      status :=
        if errors.isEmpty then "completed"
        else if created.isEmpty then "failed" else "completed" }
  { record := record, created := created, errors := errors,
    trace := r.2.2, journal := journal ++ [record] }

/-! ## Scale down (`PodManager.scale_down`) -/

/-- Environment of a `scale_down` run: `callResult i` is the outcome of
the stop/terminate call issued for the `i`-th pod id of the request, and
`order` is the order in which the concurrently gathered tasks complete
(a permutation of `0, ..., n-1`; submission order is `0, ..., n-1`). -/
structure ScaleDownEnv where
  callResult : Nat → Except String Unit
  order : List Nat

/-- Result of a `scale_down` run. -/
structure ScaleDownResult where
  record : DeployRecord
  errors : List String
  trace : List Event
  journal : List DeployRecord

/-- The events contributed by task `i` of `scale_down` (`_stop_one`): the
stop-or-terminate call for pod id number `i`, then — only if that call
succeeded — `on_progress(index + 1, len(pod_ids))`, where `index` is the
pod's position in the request. -/
def stopOneEvents (podIds : List String) (action : String)
    (env : ScaleDownEnv) (i : Nat) : List Event :=
  let pid := podIds.getD i ""
  let callEv := if action = "terminate" then Event.terminatePod pid
                else Event.stopPod pid
  match env.callResult i with
  | .ok _ => [callEv, Event.progress (i + 1) podIds.length]
  | .error _ => [callEv]

/-- `PodManager.scale_down(pod_ids, action, on_progress)`: one task per
pod id, gathered concurrently; the trace interleaves the tasks in
completion order (`env.order`); the error list is collected from the
gather results, which are in submission order; `pod_count`/`pod_ids` are
fixed to the request when the record is created. -/
def scale_down (env : ScaleDownEnv) (podIds : List String) (action : String)
    (journal : List DeployRecord) : ScaleDownResult :=
  let n := podIds.length
  let errors := (List.range n).filterMap fun i =>
    match env.callResult i with
    | .error e => some e
    | .ok _ => none
  let record : DeployRecord :=
    { action := "scale_down",
      podCount := n,
      podIds := podIds,
      notes := "action=" ++ action,
      error := if errors.isEmpty then "" else String.intercalate "; " errors,
      status := if errors.isEmpty then "completed" else "failed" }
  { record := record, errors := errors,
    trace := env.order.flatMap (stopOneEvents podIds action env),
    journal := journal ++ [record] }

/-! ## Rolling deploy (`PodManager.rolling_deploy`)

The shared cancellation flag is read at four kinds of points; the
environment gives the value the flag has at each read.  Within one deploy
the real flag is monotone in time (it starts `False` and is only ever set
by `cancel_deploy`); theorems state this where they need it. -/

/-- Environment of a rolling deploy: outcomes of creations (indexed by
target position) and of health polls (indexed by pod id and poll number),
and the cancellation-flag value at each read point.  Terminate and resume
outcomes are not modelled because the source ignores them
(`except RunPodError: pass`). -/
structure DeployEnv where
  createPod : Nat → Except String Pod
  getPod : String → Nat → Except String Pod
  cancelledTop : Nat → Bool
  cancelledHealth : Nat → Nat → Bool
  cancelledGrace : Nat → Nat → Bool
  cancelledPost : Nat → Bool

/-- The health predicate of `_wait_for_healthy`:
`pod.desired_status == "RUNNING" and pod.runtime is not None and
 pod.runtime.uptime_seconds > 0`. -/
def isHealthy (p : Pod) : Bool :=
  p.desiredStatus == "RUNNING" &&
    match p.runtimeUptime with
    | some u => decide (0 < u)
    | none => false

/-- The poll loop of `_wait_for_healthy`, at poll number `j` (the source's
`elapsed` is `5 * j`; `interval = 5`): while `elapsed < timeout`, return
unhealthy at once if the flag is set, otherwise poll — a healthy pod ends
the loop with `True`, an error or an unhealthy pod sleeps 5 seconds and
retries.  Returns the verdict and the trace of `get_pod` calls made. -/
def waitGo (cancelled : Nat → Bool) (getPod : Nat → Except String Pod)
    (podId : String) (timeout : Nat) (j : Nat) : Bool × List Event :=
  if 5 * j < timeout then
    if cancelled j then (false, [])
    else
      match getPod j with
      | .ok p =>
          if isHealthy p then (true, [Event.getPod podId])
          else
            let r := waitGo cancelled getPod podId timeout (j + 1)
            (r.1, Event.getPod podId :: r.2)
      | .error _ =>
          let r := waitGo cancelled getPod podId timeout (j + 1)
          (r.1, Event.getPod podId :: r.2)
  else (false, [])
termination_by timeout - 5 * j
decreasing_by all_goals omega

/-- `PodManager._wait_for_healthy(pod_id, timeout)` with the client and
flag abstracted. -/
def wait_for_healthy (cancelled : Nat → Bool) (getPod : Nat → Except String Pod)
    (podId : String) (timeout : Nat) : Bool × List Event :=
  waitGo cancelled getPod podId timeout 0

/-- The grace-period countdown loop:
`while remaining > 0 and not self._deploy_cancelled:
   on_countdown(remaining); await sleep(...); remaining -= 1`.
`t` numbers the flag reads (one per condition evaluation; the flag is not
read once `remaining = 0`).  Returns the `on_countdown` events emitted by
the loop body (the final `on_countdown(0)` after the loop is appended by
the caller). -/
def graceGo (cancelled : Nat → Bool) : Nat → Nat → List Event
  | 0, _ => []
  | r + 1, t =>
      if cancelled t then []
      else Event.countdown (r + 1) :: graceGo cancelled r (t + 1)

/-- `PodManager._rollback_deploy(pairs)`: for every completed
`(old, new)` pair, in order, terminate the new pod and resume the old pod
at its original GPU count, each best-effort. -/
def rollbackEvents (pairs : List (Pod × Pod)) : List Event :=
  pairs.flatMap fun pr => [Event.terminatePod pr.2.id,
    Event.resumePod pr.1.id pr.1.gpuCount]

/-- What the per-pod loop of `rolling_deploy` produces: the final status
and error of the record, the record's `pod_ids` (set only on the
all-completed path), the completed pairs, and the event trace. -/
structure DeployOutcome where
  status : String
  error : String
  podIds : List String
  pairs : List (Pod × Pod)
  trace : List Event
  deriving Repr, DecidableEq

/-- The `for idx, old_pod in enumerate(target_pods)` loop of
`rolling_deploy`, carrying the absolute index `idx` and the completed
pairs `acc`.  Each iteration: cancellation check at the top; CREATE_NEW;
HEALTH_CHECK via `_wait_for_healthy` (unhealthy ⇒ terminate the
replacement, roll back, `failed`); DRAINING with the countdown loop and a
post-loop cancellation check (cancelled ⇒ terminate the replacement, roll
back, `rolled_back`); TERMINATE_OLD (best-effort); pair completed,
`on_progress`.  The `[]` case is the loop's `else`: every pod completed,
status `completed`, `pod_ids` = the replacement ids. -/
def deployLoop (env : DeployEnv) (newImage deployId : String)
    (graceSeconds timeout total : Nat) :
    List Pod → Nat → List (Pod × Pod) → DeployOutcome
  | [], _, acc =>
    { status := "completed", error := "",
      podIds := acc.map fun pr => pr.2.id,
      pairs := acc, trace := [] }
  | old :: rest, idx, acc =>
    let oid := old.id
    if env.cancelledTop idx then
      { status := "rolled_back", error := "Cancelled by user", podIds := [],
        pairs := acc, trace := rollbackEvents acc }
    else
      let newName := old.name ++ "-v2-" ++ deployId
      let createEvs := [Event.stateChange oid "CREATE_NEW" "",
        Event.createPod newName newImage old.gpuDisplayName old.gpuCount]
      match env.createPod idx with
      | .error e =>
        { status := "failed",
          error := "Failed to create replacement for " ++ oid ++ ": " ++ e,
          podIds := [], pairs := acc,
          trace := createEvs ++ [Event.stateChange oid "FAILED" e] ++
            rollbackEvents acc }
      | .ok newPod =>
        let nid := newPod.id
        let hres := wait_for_healthy (env.cancelledHealth idx) (env.getPod nid)
          nid timeout
        let preTrace := createEvs ++ [Event.stateChange oid "HEALTH_CHECK" nid]
          ++ hres.2
        if !hres.1 then
          { status := "failed",
            error := "New pod " ++ nid ++ " failed health check",
            podIds := [], pairs := acc,
            trace := preTrace ++ [Event.stateChange oid "ROLLING_BACK" nid,
              Event.terminatePod nid] ++ rollbackEvents acc }
        else
          let graceTrace := Event.stateChange oid "DRAINING" nid ::
            graceGo (env.cancelledGrace idx) graceSeconds 0 ++
            [Event.countdown 0]
          if env.cancelledPost idx then
            { status := "rolled_back",
              error := "Cancelled by user during grace period",
              podIds := [], pairs := acc,
              trace := preTrace ++ graceTrace ++ [Event.terminatePod nid] ++
                rollbackEvents acc }
          else
            let stepTrace := preTrace ++ graceTrace ++
              [Event.stateChange oid "TERMINATE_OLD" nid,
               Event.terminatePod oid,
               Event.stateChange oid "COMPLETED" nid,
               Event.progress (acc.length + 1) total]
            let out := deployLoop env newImage deployId graceSeconds timeout
              total rest (idx + 1) (acc ++ [(old, newPod)])
            { out with trace := stepTrace ++ out.trace }

/-- The mutable per-manager state the claims touch: the shared
cancellation flag `self._deploy_cancelled`. -/
structure PMState where
  deployCancelled : Bool
  deriving Repr, DecidableEq

/-- `PodManager.cancel_deploy()`: set the shared flag. -/
def cancel_deploy (st : PMState) : PMState := { st with deployCancelled := true }

/-- Combine the flag value `rolling_deploy` starts from with the
cancellation signals that arrive during the run: a read sees `true` if
either holds. -/
def withBase (b : Bool) (env : DeployEnv) : DeployEnv :=
  { env with
    cancelledTop := fun i => b || env.cancelledTop i,
    cancelledHealth := fun i j => b || env.cancelledHealth i j,
    cancelledGrace := fun i t => b || env.cancelledGrace i t,
    cancelledPost := fun i => b || env.cancelledPost i }

/-- Result of a `rolling_deploy` run. -/
structure RollingDeployResult where
  record : DeployRecord
  pairs : List (Pod × Pod)
  trace : List Event
  journal : List DeployRecord

/-- `PodManager.rolling_deploy(target_pods, new_image,
grace_period_minutes, health_check_timeout, ...)`: reset the cancellation
flag (`self._deploy_cancelled = False`), run the per-pod loop, finalize
the record, append it to the journal. -/
def rolling_deploy (st : PMState) (env : DeployEnv) (targetPods : List Pod)
    (newImage deployId : String) (gracePeriodMinutes healthCheckTimeout : Nat)
    (journal : List DeployRecord) : RollingDeployResult :=
  let st1 : PMState := { st with deployCancelled := false }
  let out := deployLoop (withBase st1.deployCancelled env) newImage deployId
    (gracePeriodMinutes * 60) healthCheckTimeout targetPods.length
    targetPods 0 []
  let record : DeployRecord :=
    { action := "rolling_deploy",
      status := out.status,
      error := out.error,
      oldImage := match targetPods with | [] => "" | p :: _ => p.imageName,
      newImage := newImage,
      podCount := targetPods.length,
      podIds := out.podIds }
  { record := record, pairs := out.pairs, trace := out.trace,
    journal := journal ++ [record] }

/-! ## Derived notions used to state properties -/

/-- The `(done, total)` argument pairs of the `on_progress` invocations in
a trace, in order. -/
def progressArgs (tr : List Event) : List (Nat × Nat) :=
  tr.filterMap fun e =>
    match e with
    | Event.progress a b => some (a, b)
    | _ => none

/-- Whether an event is a `create_pod` Fleet API call. -/
def isCreateEvent : Event → Bool
  | Event.createPod _ _ _ _ => true
  | _ => false

/-- Whether an event is a Fleet API call that operates on the existing
pod `pid` (get/stop/terminate/resume; creations and callbacks are not
calls on an existing pod). -/
def clientCallOn (pid : String) : Event → Bool
  | Event.getPod p => p == pid
  | Event.stopPod p => p == pid
  | Event.terminatePod p => p == pid
  | Event.resumePod p _ => p == pid
  | _ => false

/-- The `create_pod` call event issued by `scale_up` for index `i`. -/
def suAttemptEv (namePref deployId imageName gpuTypeId : String)
    (gc i : Nat) : Event :=
  Event.createPod (namePref ++ "-" ++ deployId ++ "-" ++ toString i)
    imageName gpuTypeId gc

/-- The trace segment of a successful `scale_up` iteration `i`: the
creation call followed by `on_progress(i + 1, count)`. -/
def suSuccessSeg (namePref deployId imageName gpuTypeId : String)
    (gc count i : Nat) : List Event :=
  [suAttemptEv namePref deployId imageName gpuTypeId gc i,
   Event.progress (i + 1) count]

/-- Whether the scale-down task for index `i` failed. -/
def callFailed (env : ScaleDownEnv) (i : Nat) : Bool :=
  match env.callResult i with
  | .error _ => true
  | .ok _ => false

/-- Default pod used with `List.getD` in statements about target lists. -/
def dPod : Pod := { id := "", name := "" }

/-- Prepend events to an outcome's trace (how a completed iteration's
events are attached in `deployLoop`). -/
def prependTrace (t : List Event) (o : DeployOutcome) : DeployOutcome :=
  { o with trace := t ++ o.trace }

/-- The event trace of one fully successful `rolling_deploy` iteration at
absolute target index `idx`, with `L` pairs already completed: the five
state callbacks, the creation call, the health polls, the countdown, the
termination of the old pod, and `on_progress(L + 1, total)`. -/
def successStep (env : DeployEnv) (newImage deployId : String)
    (graceSeconds timeout total idx L : Nat) (old npod : Pod) : List Event :=
  [Event.stateChange old.id "CREATE_NEW" "",
   Event.createPod (old.name ++ "-v2-" ++ deployId) newImage
     old.gpuDisplayName old.gpuCount,
   Event.stateChange old.id "HEALTH_CHECK" npod.id] ++
  (wait_for_healthy (env.cancelledHealth idx) (env.getPod npod.id)
    npod.id timeout).2 ++
  (Event.stateChange old.id "DRAINING" npod.id ::
    graceGo (env.cancelledGrace idx) graceSeconds 0 ++ [Event.countdown 0]) ++
  [Event.stateChange old.id "TERMINATE_OLD" npod.id,
   Event.terminatePod old.id,
   Event.stateChange old.id "COMPLETED" npod.id,
   Event.progress (L + 1) total]

/-- The event trace of a `rolling_deploy` iteration at absolute index
`idx` that creates its replacement, passes the health check, and then
observes the cancellation flag after the countdown loop: everything of a
successful step up to the countdown, then the termination of the
just-created replacement (the rollback of prior pairs follows
separately). -/
def cancelGraceStepTrace (env : DeployEnv) (newImage deployId : String)
    (graceSeconds timeout idx : Nat) (old npod : Pod) : List Event :=
  [Event.stateChange old.id "CREATE_NEW" "",
   Event.createPod (old.name ++ "-v2-" ++ deployId) newImage
     old.gpuDisplayName old.gpuCount,
   Event.stateChange old.id "HEALTH_CHECK" npod.id] ++
  (wait_for_healthy (env.cancelledHealth idx) (env.getPod npod.id)
    npod.id timeout).2 ++
  (Event.stateChange old.id "DRAINING" npod.id ::
    graceGo (env.cancelledGrace idx) graceSeconds 0 ++ [Event.countdown 0]) ++
  [Event.terminatePod npod.id]

/-- The concatenated traces of a run of fully successful
`rolling_deploy` iterations over the pods `seg`, starting at absolute
index `idx` with `L` pairs already completed, the replacement for index
`i` being `np i`. -/
def cleanPrefixTrace (env : DeployEnv) (newImage deployId : String)
    (graceSeconds timeout total : Nat) (np : Nat → Pod) :
    Nat → Nat → List Pod → List Event
  | _, _, [] => []
  | idx, L, old :: rest =>
      successStep env newImage deployId graceSeconds timeout total idx L
        old (np idx) ++
      cleanPrefixTrace env newImage deployId graceSeconds timeout total np
        (idx + 1) (L + 1) rest

/-! ## Concrete inputs used by witnesses and counterexamples -/

/-- A GPU type with a negative community price and a zero secure price. -/
def cexGpu : GpuType :=
  { id := "neg", displayName := "neg", communityPrice := -1, securePrice := 0 }

/-- The GPU type of the spec's cost example:
community 0.5 $/h, secure 0.8 $/h. -/
def specGpu : GpuType :=
  { id := "g", displayName := "G", communityPrice := 1/2, securePrice := 4/5 }

/-- Scale-down environment where both calls succeed and the second task
finishes first. -/
def c6Env : ScaleDownEnv := { callResult := fun _ => .ok (), order := [1, 0] }

/-- Scale-down environment over four tasks where task 1 fails and
completion order differs from submission order. -/
def c5Env : ScaleDownEnv :=
  { callResult := fun i => if i = 1 then .error "stop failed" else .ok (),
    order := [3, 0, 1, 2] }

/-- A pod created by the witness scale-up environment. -/
def wPod (i : Nat) : Pod := { id := "p" ++ toString i, name := "n" ++ toString i }

/-- Scale-up environment where creations 0 and 1 succeed and creation 2
fails with a capacity-exhaustion message. -/
def c4Env : ScaleUpEnv :=
  { createPod := fun i =>
      if i < 2 then .ok (wPod i)
      else .error "GPU: There are no longer any instances available." }

/-- Scale-up environment where every creation fails with a non-capacity
error. -/
def c3Env : ScaleUpEnv := { createPod := fun _ => .error "boom" }

/-- An old pod and its never-healthy replacement, for the health-check
witness. -/
def wOld : Pod := { id := "old0", name := "w0", imageName := "img1", gpuCount := 2 }

/-- The never-healthy replacement pod (`desired_status` empty, no
runtime). -/
def wNew : Pod := { id := "new0", name := "w0-v2" }

/-- Deploy environment whose replacement pod never becomes healthy and in
which cancellation is never requested. -/
def c1Env : DeployEnv :=
  { createPod := fun _ => .ok wNew,
    getPod := fun _ _ => .ok wNew,
    cancelledTop := fun _ => false,
    cancelledHealth := fun _ _ => false,
    cancelledGrace := fun _ _ => false,
    cancelledPost := fun _ => false }

/-- The replacement pods of the cancellation witness deploy: healthy and
running from the first poll. -/
def wNp (i : Nat) : Pod :=
  { id := "new" ++ toString i, name := "nn" ++ toString i,
    desiredStatus := "RUNNING", gpuCount := 1, runtimeUptime := some 5 }

/-- The three target pods of the cancellation witness deploy. -/
def wTp : List Pod :=
  [{ id := "old0", name := "a0", imageName := "img1", gpuCount := 2 },
   { id := "old1", name := "a1", imageName := "img1", gpuCount := 4 },
   { id := "old2", name := "a2", imageName := "img1", gpuCount := 8 }]

/-- Deploy environment for the cancellation witness: every creation
succeeds with `wNp i`, every poll reports a running pod with positive
uptime, and the cancellation flag is first seen set at the post-countdown
read of target pod 1. -/
def c2Env : DeployEnv :=
  { createPod := fun i => .ok (wNp i),
    getPod := fun pid _ => .ok
      { id := pid, name := pid, desiredStatus := "RUNNING",
        runtimeUptime := some 1 },
    cancelledTop := fun _ => false,
    cancelledHealth := fun _ _ => false,
    cancelledGrace := fun _ _ => false,
    cancelledPost := fun i => i == 1 }

/-! # Theorems -/

/-- `isHealthy` unfolded to the spec's wording: running desired status and
strictly positive reported uptime. -/
lemma isHealthy_iff (p : Pod) :
    isHealthy p = true ↔
      p.desiredStatus = "RUNNING" ∧ ∃ u, p.runtimeUptime = some u ∧ 0 < u := by
  cases h : p.runtimeUptime <;> simp [isHealthy, h]

/-- C7 (counterexample): with a negative community price and a zero secure
price, the blended tier yields 0, not the minimum of the non-zero prices
(which would be the negative community price): the source filters on
`p > 0`, not `p != 0`. -/
theorem estimate_cost_negative_price_cex :
    (estimate_cost cexGpu 1 1 "ALL" 1).perPodHr = 0 ∧
    (estimate_cost cexGpu 1 1 "ALL" 1).perPodHr ≠ -1 := by
  constructor <;> norm_num [estimate_cost, cexGpu, GpuType.lowestPrice] <;>
    decide

/-- C7 (amended): `estimate_cost` multiplies the selected price by the GPU
count, the pod count, and the hours; the community price is selected for
COMMUNITY, the secure price for SECURE, and otherwise the minimum of the
two **positive** prices (0 when neither price is positive). -/
theorem estimate_cost_selection (g : GpuType) (gc pc : Nat) (ct : String)
    (hrs : Rat) :
    ((estimate_cost g gc pc ct hrs).totalHr =
        (estimate_cost g gc pc ct hrs).perPodHr * pc) ∧
    ((estimate_cost g gc pc ct hrs).totalPeriod =
        (estimate_cost g gc pc ct hrs).totalHr * hrs) ∧
    (ct = "COMMUNITY" →
        (estimate_cost g gc pc ct hrs).perPodHr = g.communityPrice * gc) ∧
    (ct ≠ "COMMUNITY" → ct = "SECURE" →
        (estimate_cost g gc pc ct hrs).perPodHr = g.securePrice * gc) ∧
    (ct ≠ "COMMUNITY" → ct ≠ "SECURE" →
        ((0 < g.communityPrice → 0 < g.securePrice →
            (estimate_cost g gc pc ct hrs).perPodHr =
              min g.communityPrice g.securePrice * gc) ∧
         (0 < g.communityPrice → g.securePrice ≤ 0 →
            (estimate_cost g gc pc ct hrs).perPodHr = g.communityPrice * gc) ∧
         (g.communityPrice ≤ 0 → 0 < g.securePrice →
            (estimate_cost g gc pc ct hrs).perPodHr = g.securePrice * gc) ∧
         (g.communityPrice ≤ 0 → g.securePrice ≤ 0 →
            (estimate_cost g gc pc ct hrs).perPodHr = 0))) := by
  refine ⟨rfl, rfl, ?_, ?_, ?_⟩
  · intro h
    simp [estimate_cost, h]
  · intro h1 h2
    simp [estimate_cost, h1, h2]
  · intro h1 h2
    simp only [estimate_cost, GpuType.lowestPrice, if_neg h1, if_neg h2]
    refine ⟨?_, ?_, ?_, ?_⟩ <;> intro ha hb
    · simp [if_pos ha, if_pos hb]
    · simp [if_pos ha, if_neg (not_lt.mpr hb)]
    · simp [if_neg (not_lt.mpr ha), if_pos hb]
    · simp [if_neg (not_lt.mpr ha), if_neg (not_lt.mpr hb)]

/-- C7 (witness): the spec's cost example — community 0.5, secure 0.8,
2 GPUs, 3 pods: blended tier gives 1.0 $/h per pod and 3.0 $/h total;
secure tier gives 1.6 $/h per pod. -/
theorem estimate_cost_selection_witness :
    (estimate_cost specGpu 2 3 "ALL" 1).perPodHr = 1 ∧
    (estimate_cost specGpu 2 3 "ALL" 1).totalHr = 3 ∧
    (estimate_cost specGpu 2 3 "SECURE" 1).perPodHr = 8 / 5 := by
  obtain ⟨ht, -, -, -, hsel⟩ := estimate_cost_selection specGpu 2 3 "ALL" 1
  obtain ⟨-, -, -, hsec, -⟩ := estimate_cost_selection specGpu 2 3 "SECURE" 1
  have hmin := (hsel (by decide) (by decide)).1 (by norm_num [specGpu])
    (by norm_num [specGpu])
  have hper : (estimate_cost specGpu 2 3 "ALL" 1).perPodHr = 1 := by
    rw [hmin]; norm_num [specGpu]
  have hse : (estimate_cost specGpu 2 3 "SECURE" 1).perPodHr = 8 / 5 := by
    rw [hsec (by decide) rfl]; norm_num [specGpu]
  refine ⟨hper, ?_, hse⟩
  rw [ht, hper]; norm_num

/-- C8 (counterexample): `truncate_history` with `keep = 0` on a one-line
log (1 line > 2×0 lines) leaves the log unchanged instead of rewriting it
to its last 0 lines (the empty log): Python's `lines[-0:]` is the whole
list. -/
theorem truncate_history_keep_zero_cex :
    truncate_history ["a"] 0 = ["a"] ∧
    truncate_history ["a"] 0 ≠ ([] : List String) := by
  constructor <;> simp [truncate_history, pyLastSlice]

/-- C8 (amended): for every `keep ≥ 1`, `truncate_history` rewrites the
log to exactly its last `keep` lines when it holds strictly more than
`2×keep` lines, and leaves it unchanged when it holds `2×keep` lines or
fewer. -/
theorem truncate_history_hysteresis (lines : List String) (keep : Nat)
    (hk : 1 ≤ keep) :
    (keep * 2 < lines.length →
        truncate_history lines keep = lines.drop (lines.length - keep)) ∧
    (lines.length ≤ keep * 2 → truncate_history lines keep = lines) := by
  constructor <;> intro h
  · have hk0 : keep ≠ 0 := by omega
    simp [truncate_history, pyLastSlice, h, hk0]
  · have h2 : ¬ keep * 2 < lines.length := by omega
    simp [truncate_history, h2]

/-- C8 (witness): with `keep = 1`, a three-line log is rewritten to its
last line and a two-line log is left unchanged. -/
theorem truncate_history_hysteresis_witness :
    (1 : Nat) ≤ 1 ∧ truncate_history ["a", "b", "c"] 1 = ["c"] ∧
    truncate_history ["a", "b"] 1 = ["a", "b"] := by
  refine ⟨le_refl 1, ?_, ?_⟩
  · have h := (truncate_history_hysteresis ["a", "b", "c"] 1 (by decide)).1
      (by decide)
    simpa using h
  · exact (truncate_history_hysteresis ["a", "b"] 1 (by decide)).2 (by decide)

/-- C9: calling `cancel_deploy` while no deploy is active has no effect on
a subsequent `rolling_deploy` — the run's outcome (record, pairs, trace
and journal) is identical to one without the prior `cancel_deploy`,
because the flag is reset at the start of every `rolling_deploy`. -/
theorem cancel_deploy_idle_noop (st : PMState) (env : DeployEnv)
    (tp : List Pod) (ni di : String) (gpm hct : Nat)
    (journal : List DeployRecord) :
    rolling_deploy (cancel_deploy st) env tp ni di gpm hct journal =
      rolling_deploy st env tp ni di gpm hct journal := by
  cases st
  rfl

/-- C10: a rolling deploy over an empty target list makes no Fleet API
calls and invokes no callbacks (empty trace), completes with
`pod_count = 0`, empty `pod_ids` and empty error, completes zero pairs,
and its record is still appended to the journal. -/
theorem rolling_deploy_empty_targets (st : PMState) (env : DeployEnv)
    (ni di : String) (gpm hct : Nat) (journal : List DeployRecord) :
    (rolling_deploy st env [] ni di gpm hct journal).trace = [] ∧
    (rolling_deploy st env [] ni di gpm hct journal).record.status =
      "completed" ∧
    (rolling_deploy st env [] ni di gpm hct journal).record.podCount = 0 ∧
    (rolling_deploy st env [] ni di gpm hct journal).record.podIds = [] ∧
    (rolling_deploy st env [] ni di gpm hct journal).record.error = "" ∧
    (rolling_deploy st env [] ni di gpm hct journal).pairs = [] ∧
    (rolling_deploy st env [] ni di gpm hct journal).journal =
      journal ++ [(rolling_deploy st env [] ni di gpm hct journal).record] :=
  ⟨rfl, rfl, rfl, rfl, rfl, rfl, rfl⟩

/-- C6: at a two-pod scale-down where both stop calls succeed and the
second task completes first, `on_progress` fires with `(2, 2)` first and
`(1, 2)` second — the first argument is the pod's input position, not the
number of calls completed so far (which would give `(1, 2)` then
`(2, 2)`). -/
theorem scale_down_progress_passes_index :
    progressArgs (scale_down c6Env ["a", "b"] "stop" []).trace =
      [(2, 2), (1, 2)] ∧
    progressArgs (scale_down c6Env ["a", "b"] "stop" []).trace ≠
      [(1, 2), (2, 2)] := by
  constructor <;> decide

/-- C3: for every creation-outcome pattern, the final scale-up record's
`pod_ids` are exactly the ids of the pods actually created and
`pod_count` is their number (replacing the requested count); the status
is `failed` iff at least one error occurred and zero pods were created,
and `completed` otherwise; all per-index errors are joined with `"; "`
into the record's error field; the record is journaled. -/
theorem scale_up_record_outcome (env : ScaleUpEnv) (count : Nat)
    (namePref deployId imageName gpuTypeId : String) (gc : Nat)
    (journal : List DeployRecord) :
    (scale_up env count namePref deployId imageName gpuTypeId gc
        journal).record.podIds =
      (scale_up env count namePref deployId imageName gpuTypeId gc
        journal).created.map Pod.id ∧
    (scale_up env count namePref deployId imageName gpuTypeId gc
        journal).record.podCount =
      (scale_up env count namePref deployId imageName gpuTypeId gc
        journal).created.length ∧
    ((scale_up env count namePref deployId imageName gpuTypeId gc
        journal).record.status = "failed" ↔
      ((scale_up env count namePref deployId imageName gpuTypeId gc
          journal).errors ≠ [] ∧
       (scale_up env count namePref deployId imageName gpuTypeId gc
          journal).created = [])) ∧
    ((scale_up env count namePref deployId imageName gpuTypeId gc
        journal).record.status = "failed" ∨
     (scale_up env count namePref deployId imageName gpuTypeId gc
        journal).record.status = "completed") ∧
    (scale_up env count namePref deployId imageName gpuTypeId gc
        journal).record.error =
      String.intercalate "; "
        (scale_up env count namePref deployId imageName gpuTypeId gc
          journal).errors ∧
    (scale_up env count namePref deployId imageName gpuTypeId gc
        journal).journal =
      journal ++ [(scale_up env count namePref deployId imageName gpuTypeId gc
        journal).record] := by
  have hne : ("completed" : String) ≠ "failed" := by decide
  have hnil : String.intercalate "; " [] = "" := rfl
  refine ⟨rfl, rfl, ?_, ?_, ?_, rfl⟩ <;> simp only [scale_up]
  · by_cases he :
        (scaleUpGo env namePref deployId imageName gpuTypeId gc count
          0 [] [] []).2.1 = [] <;>
      by_cases hc :
        (scaleUpGo env namePref deployId imageName gpuTypeId gc count
          0 [] [] []).1 = [] <;>
      simp [he, hc, hne]
  · by_cases he :
        (scaleUpGo env namePref deployId imageName gpuTypeId gc count
          0 [] [] []).2.1 = [] <;>
      by_cases hc :
        (scaleUpGo env namePref deployId imageName gpuTypeId gc count
          0 [] [] []).1 = [] <;>
      simp [he, hc]
  · by_cases he :
        (scaleUpGo env namePref deployId imageName gpuTypeId gc count
          0 [] [] []).2.1 = [] <;>
      simp [he, hnil]

/-- One `scaleUpGo` step on a successful creation: append the pod,
report progress, continue with the next index. -/
lemma scaleUpGo_ok (env : ScaleUpEnv)
    (namePref deployId imageName gpuTypeId : String) (gc count i : Nat)
    (cr : List Pod) (er : List String) (tr : List Event) (p : Pod)
    (hi : i < count) (h : env.createPod i = .ok p) :
    scaleUpGo env namePref deployId imageName gpuTypeId gc count i cr er tr =
      scaleUpGo env namePref deployId imageName gpuTypeId gc count (i + 1)
        (cr ++ [p]) er
        (tr ++ suSuccessSeg namePref deployId imageName gpuTypeId gc count i) := by
  rw [scaleUpGo]
  simp [hi, h, suSuccessSeg, suAttemptEv]

/-- One `scaleUpGo` step on a non-capacity failure: record the error for
that index and continue with the next index. -/
lemma scaleUpGo_error_continue (env : ScaleUpEnv)
    (namePref deployId imageName gpuTypeId : String) (gc count i : Nat)
    (cr : List Pod) (er : List String) (tr : List Event) (e : String)
    (hi : i < count) (h : env.createPod i = .error e)
    (hcap : containsSub (pyLower e) capacityMsg = false) :
    scaleUpGo env namePref deployId imageName gpuTypeId gc count i cr er tr =
      scaleUpGo env namePref deployId imageName gpuTypeId gc count (i + 1) cr
        (er ++ ["Pod " ++ toString (i + 1) ++ ": " ++ e])
        (tr ++ [suAttemptEv namePref deployId imageName gpuTypeId gc i]) := by
  rw [scaleUpGo]
  simp [hi, h, hcap, suAttemptEv]

/-- One `scaleUpGo` step on a capacity-exhaustion failure: record the
error and the "Stopped after K/N" note and stop. -/
lemma scaleUpGo_capacity_break (env : ScaleUpEnv)
    (namePref deployId imageName gpuTypeId : String) (gc count i : Nat)
    (cr : List Pod) (er : List String) (tr : List Event) (e : String)
    (hi : i < count) (h : env.createPod i = .error e)
    (hcap : containsSub (pyLower e) capacityMsg = true) :
    scaleUpGo env namePref deployId imageName gpuTypeId gc count i cr er tr =
      (cr,
       er ++ ["Pod " ++ toString (i + 1) ++ ": " ++ e,
         "Stopped after " ++ toString cr.length ++ "/" ++ toString count ++
           " — no GPUs available"],
       tr ++ [suAttemptEv namePref deployId imageName gpuTypeId gc i]) := by
  rw [scaleUpGo]
  simp [hi, h, hcap, suAttemptEv]

/-- A run of `scaleUpGo` whose creations succeed up to index `k` and fail
with a capacity message at `k`: the result collects exactly the pods of
indices `j, ..., k-1`, the two final error messages, and one creation
attempt per index up to `k`. -/
lemma scaleUpGo_capacity_stop (env : ScaleUpEnv)
    (namePref deployId imageName gpuTypeId : String) (gc count k : Nat)
    (pi : Nat → Pod) (e : String)
    (hk : k < count)
    (hok : ∀ i, i < k → env.createPod i = .ok (pi i))
    (herr : env.createPod k = .error e)
    (hcap : containsSub (pyLower e) capacityMsg = true) :
    ∀ d j cr er tr, j + d = k →
      scaleUpGo env namePref deployId imageName gpuTypeId gc count j cr er tr =
        (cr ++ (List.range' j d).map pi,
         er ++ ["Pod " ++ toString (k + 1) ++ ": " ++ e,
           "Stopped after " ++ toString (cr.length + d) ++ "/" ++
             toString count ++ " — no GPUs available"],
         tr ++ (List.range' j d).flatMap
             (suSuccessSeg namePref deployId imageName gpuTypeId gc count) ++
           [suAttemptEv namePref deployId imageName gpuTypeId gc k]) := by
  intro d
  induction d with
  | zero =>
    intro j cr er tr hj
    have hj' : j = k := by omega
    subst hj'
    rw [scaleUpGo_capacity_break env namePref deployId imageName gpuTypeId gc
      count j cr er tr e hk herr hcap]
    simp
  | succ d ih =>
    intro j cr er tr hj
    have hjk : j < k := by omega
    rw [scaleUpGo_ok env namePref deployId imageName gpuTypeId gc count j cr
      er tr (pi j) (by omega) (hok j hjk)]
    rw [ih (j + 1) (cr ++ [pi j]) er
      (tr ++ suSuccessSeg namePref deployId imageName gpuTypeId gc count j)
      (by omega)]
    have hlen : cr.length + 1 + d = cr.length + (d + 1) := by omega
    refine Prod.ext ?_ (Prod.ext ?_ ?_) <;>
      simp [List.range'_succ, hlen]

/-- The creation-call count of a run of successful scale-up segments: one
per index. -/
lemma countP_suSuccessSeg (namePref deployId imageName gpuTypeId : String)
    (gc count : Nat) (l : List Nat) :
    (l.flatMap (suSuccessSeg namePref deployId imageName gpuTypeId gc
      count)).countP isCreateEvent = l.length := by
  induction l with
  | nil => simp
  | cons a l ih =>
    simp [List.countP_append, ih, suSuccessSeg, suAttemptEv, isCreateEvent,
      List.countP_cons]

/-- C4: when creation `k` fails with a capacity-exhaustion message (and
all earlier creations succeed), scale-up keeps exactly the pods created
before `k`, records the index-`k` error followed by the
"Stopped after K/N — no GPUs available" note, and attempts exactly `k+1`
creations (none after index `k`); and, in general, a non-capacity
creation failure records the error for that index and continues with the
next index. -/
theorem scale_up_capacity_early_stop (env : ScaleUpEnv) (count : Nat)
    (namePref deployId imageName gpuTypeId : String) (gc : Nat)
    (journal : List DeployRecord) (k : Nat) (pi : Nat → Pod) (e : String)
    (hk : k < count)
    (hok : ∀ i, i < k → env.createPod i = .ok (pi i))
    (herr : env.createPod k = .error e)
    (hcap : containsSub (pyLower e) capacityMsg = true) :
    (scale_up env count namePref deployId imageName gpuTypeId gc
        journal).created = (List.range k).map pi ∧
    (scale_up env count namePref deployId imageName gpuTypeId gc
        journal).errors =
      ["Pod " ++ toString (k + 1) ++ ": " ++ e,
       "Stopped after " ++ toString k ++ "/" ++ toString count ++
         " — no GPUs available"] ∧
    (scale_up env count namePref deployId imageName gpuTypeId gc
        journal).trace.countP isCreateEvent = k + 1 ∧
    (∀ (env2 : ScaleUpEnv) (i : Nat) (cr : List Pod) (er : List String)
       (tr : List Event) (e2 : String), i < count →
       env2.createPod i = .error e2 →
       containsSub (pyLower e2) capacityMsg = false →
       scaleUpGo env2 namePref deployId imageName gpuTypeId gc count i
           cr er tr =
         scaleUpGo env2 namePref deployId imageName gpuTypeId gc count (i + 1)
           cr (er ++ ["Pod " ++ toString (i + 1) ++ ": " ++ e2])
           (tr ++ [suAttemptEv namePref deployId imageName gpuTypeId gc i])) := by
  have hrun := scaleUpGo_capacity_stop env namePref deployId imageName
    gpuTypeId gc count k pi e hk hok herr hcap k 0 [] [] [] (by omega)
  refine ⟨?_, ?_, ?_, ?_⟩
  · simp only [scale_up, hrun]
    simp [List.range_eq_range']
  · simp only [scale_up, hrun]
    simp
  · simp only [scale_up, hrun]
    simp [List.countP_append, countP_suSuccessSeg, isCreateEvent, suAttemptEv]
  · intro env2 i cr er tr e2 hi h2 hcap2
    exact scaleUpGo_error_continue env2 namePref deployId imageName gpuTypeId
      gc count i cr er tr e2 hi h2 hcap2

/-- C4 (witness): requesting 5 pods where creation 2 (0-based) fails with
a capacity message: exactly pods 0 and 1 are created, the error list
holds the pod-3 failure and the "Stopped after 2/5" note, and exactly 3
creations are attempted. -/
theorem scale_up_capacity_early_stop_witness :
    (scale_up c4Env 5 "web" "d1" "img" "gt" 1 []).created =
      [wPod 0, wPod 1] ∧
    (scale_up c4Env 5 "web" "d1" "img" "gt" 1 []).errors =
      ["Pod 3: GPU: There are no longer any instances available.",
       "Stopped after 2/5 — no GPUs available"] ∧
    (scale_up c4Env 5 "web" "d1" "img" "gt" 1 []).trace.countP
      isCreateEvent = 3 := by
  have h := scale_up_capacity_early_stop c4Env 5 "web" "d1" "img" "gt" 1 [] 2
    wPod "GPU: There are no longer any instances available."
    (by decide) (fun i hi => by simp [c4Env, hi]) rfl (by decide)
  exact ⟨h.1.trans (by decide), h.2.1.trans (by decide),
    h.2.2.1.trans (by decide)⟩

/-- C5: after every scale-down task finishes (completion order being any
permutation of the tasks), the record's status is `failed` iff at least
one task failed, the failing tasks' errors are joined into the record's
single error string, `pod_count` and `pod_ids` always equal the requested
set, and every pod's stop/terminate call is made regardless of other
tasks' failures. -/
theorem scale_down_record_outcome (env : ScaleDownEnv) (podIds : List String)
    (action : String) (journal : List DeployRecord)
    (horder : env.order.Perm (List.range podIds.length)) :
    (scale_down env podIds action journal).record.podCount =
      podIds.length ∧
    (scale_down env podIds action journal).record.podIds = podIds ∧
    ((scale_down env podIds action journal).record.status = "failed" ↔
      ∃ i < podIds.length, callFailed env i = true) ∧
    (scale_down env podIds action journal).record.error =
      String.intercalate "; " (scale_down env podIds action journal).errors ∧
    (∀ i < podIds.length,
      (if action = "terminate" then Event.terminatePod (podIds.getD i "")
       else Event.stopPod (podIds.getD i "")) ∈
        (scale_down env podIds action journal).trace) := by
  have hnil : String.intercalate "; " [] = "" := rfl
  have key : (((List.range podIds.length).filterMap fun i =>
      match env.callResult i with
      | .error e => some e
      | .ok _ => none) = []) ↔
      ∀ i < podIds.length, callFailed env i = false := by
    rw [List.filterMap_eq_nil_iff]
    constructor
    · intro h i hi
      have hmem := h i (List.mem_range.2 hi)
      cases hc : env.callResult i
      · rw [hc] at hmem
        simp at hmem
      · simp [callFailed, hc]
    · intro h a ha
      have hfa := h a (List.mem_range.1 ha)
      cases hc : env.callResult a
      · simp [callFailed, hc] at hfa
      · simp [hc]
  refine ⟨rfl, rfl, ?_, ?_, ?_⟩
  · by_cases he : ((List.range podIds.length).filterMap fun i =>
        match env.callResult i with
        | .error e => some e
        | .ok _ => none) = []
    · have hs : (scale_down env podIds action journal).record.status =
          "completed" := by
        simp [scale_down, he]
      rw [hs]
      constructor
      · intro h
        exact absurd h (by decide)
      · rintro ⟨i, hi, hf⟩
        rw [key.1 he i hi] at hf
        exact absurd hf (by decide)
    · have hs : (scale_down env podIds action journal).record.status =
          "failed" := by
        simp [scale_down, List.isEmpty_iff, he]
      rw [hs]
      constructor
      · intro _
        by_contra hnone
        push_neg at hnone
        exact he (key.2 fun i hi => by simpa using hnone i hi)
      · intro _
        rfl
  · simp only [scale_down]
    by_cases he : ((List.range podIds.length).filterMap fun i =>
        match env.callResult i with
        | .error e => some e
        | .ok _ => none) = [] <;>
      simp [he, hnil]
  · intro i hi
    simp only [scale_down, List.mem_flatMap]
    refine ⟨i, horder.mem_iff.2 (List.mem_range.2 hi), ?_⟩
    unfold stopOneEvents
    cases hc : env.callResult i <;> simp [hc]

/-- C5 (witness): four pod ids, the stop call for pod 1 fails, tasks
complete in the order 3, 0, 1, 2: the record is `failed`, `pod_count`
stays 4, `pod_ids` stays the requested set, the single error is joined
into the error field, and the failing pod's call was still made. -/
theorem scale_down_record_outcome_witness :
    (scale_down c5Env ["a", "b", "c", "d"] "stop" []).record.status =
      "failed" ∧
    (scale_down c5Env ["a", "b", "c", "d"] "stop" []).record.podCount = 4 ∧
    (scale_down c5Env ["a", "b", "c", "d"] "stop" []).record.podIds =
      ["a", "b", "c", "d"] ∧
    Event.stopPod "b" ∈ (scale_down c5Env ["a", "b", "c", "d"] "stop" []).trace := by
  have h := scale_down_record_outcome c5Env ["a", "b", "c", "d"] "stop" []
    (by decide)
  refine ⟨h.2.2.1.2 ⟨1, by decide, by decide⟩, by simpa using h.1, h.2.1, ?_⟩
  have hm := h.2.2.2.2 1 (by decide)
  simpa using hm

/-- The poll loop of `_wait_for_healthy` when cancellation never occurs
and no poll reports a healthy pod: it polls at 0, 5, 10, ... seconds
while `elapsed < timeout` — `⌈(timeout - 5j)/5⌉` polls from poll `j` —
and returns unhealthy. -/
lemma waitGo_not_healthy (c : Nat → Bool) (g : Nat → Except String Pod)
    (pid : String) (timeout : Nat)
    (hc : ∀ j, c j = false)
    (hg : ∀ j p, g j = .ok p → isHealthy p = false) :
    ∀ j, waitGo c g pid timeout j =
      (false, List.replicate ((timeout - 5 * j + 4) / 5) (Event.getPod pid)) := by
  have main : ∀ n j, timeout - 5 * j ≤ n →
      waitGo c g pid timeout j =
        (false, List.replicate ((timeout - 5 * j + 4) / 5)
          (Event.getPod pid)) := by
    intro n
    induction n with
    | zero =>
      intro j hj
      have h5 : ¬ 5 * j < timeout := by omega
      have hz : (timeout - 5 * j + 4) / 5 = 0 := by omega
      rw [waitGo]
      simp [h5, hz]
    | succ n ih =>
      intro j hj
      by_cases h5 : 5 * j < timeout
      · have hrep : (timeout - 5 * j + 4) / 5 =
            (timeout - 5 * (j + 1) + 4) / 5 + 1 := by omega
        rw [waitGo]
        simp only [if_pos h5, hc j, Bool.false_eq_true, if_false]
        cases hgj : g j with
        | error e =>
          rw [ih (j + 1) (by omega)]
          simp [hrep, List.replicate_succ]
        | ok p =>
          have hp := hg j p hgj
          rw [ih (j + 1) (by omega)]
          simp [hp, hrep, List.replicate_succ]
      · have hz : (timeout - 5 * j + 4) / 5 = 0 := by omega
        rw [waitGo]
        simp [h5, hz]
  exact fun j => main (timeout - 5 * j) j le_rfl

/-- If the poll loop of `_wait_for_healthy` reports healthy, some poll
within the timeout returned a healthy pod. -/
lemma waitGo_healthy_reason (c : Nat → Bool) (g : Nat → Except String Pod)
    (pid : String) (timeout : Nat) :
    ∀ j, (waitGo c g pid timeout j).1 = true →
      ∃ j2 p, 5 * j2 < timeout ∧ g j2 = .ok p ∧ isHealthy p = true := by
  have main : ∀ n j, timeout - 5 * j ≤ n →
      (waitGo c g pid timeout j).1 = true →
      ∃ j2 p, 5 * j2 < timeout ∧ g j2 = .ok p ∧ isHealthy p = true := by
    intro n
    induction n with
    | zero =>
      intro j hj h
      rw [waitGo] at h
      have h5 : ¬ 5 * j < timeout := by omega
      simp [h5] at h
    | succ n ih =>
      intro j hj h
      rw [waitGo] at h
      by_cases h5 : 5 * j < timeout
      · simp only [if_pos h5] at h
        by_cases hcj : c j = true
        · simp [hcj] at h
        · simp only [Bool.not_eq_true] at hcj
          simp only [hcj, Bool.false_eq_true, if_false] at h
          cases hgj : g j with
          | error e =>
            simp only [hgj] at h
            exact ih (j + 1) (by omega) h
          | ok p =>
            simp only [hgj] at h
            by_cases hh : isHealthy p = true
            · exact ⟨j, p, h5, hgj, hh⟩
            · simp only [Bool.not_eq_true] at hh
              simp only [hh, Bool.false_eq_true, if_false] at h
              exact ih (j + 1) (by omega) h
      · simp [h5] at h
  exact fun j => main (timeout - 5 * j) j le_rfl

/-- `withBase` with a cleared starting flag (the state after
`self._deploy_cancelled = False`) is the environment itself. -/
lemma withBase_false (env : DeployEnv) : withBase false env = env := by
  cases env
  simp [withBase]

/-- C1: the health-check poll loop checks the pod every 5 seconds up to
the timeout (`⌈timeout/5⌉` polls when never healthy and not cancelled),
returns unhealthy immediately when cancellation has been requested, and
reports healthy only when some poll returned a pod whose desired status
is RUNNING with reported uptime greater than zero; and a rolling deploy
whose first replacement pod never becomes healthy before the timeout
terminates the replacement, never terminates the old pod, ends with
status `failed`, and completes zero pairs. -/
theorem wait_for_healthy_spec :
    (∀ (c : Nat → Bool) (g : Nat → Except String Pod) (pid : String)
       (timeout : Nat),
       (∀ j, c j = false) → (∀ j p, g j = .ok p → isHealthy p = false) →
       wait_for_healthy c g pid timeout =
         (false, List.replicate ((timeout + 4) / 5) (Event.getPod pid))) ∧
    (∀ (c : Nat → Bool) (g : Nat → Except String Pod) (pid : String)
       (timeout : Nat),
       (wait_for_healthy c g pid timeout).1 = true →
       ∃ j p, 5 * j < timeout ∧ g j = .ok p ∧
         p.desiredStatus = "RUNNING" ∧ ∃ u, p.runtimeUptime = some u ∧ 0 < u) ∧
    (∀ (c : Nat → Bool) (g : Nat → Except String Pod) (pid : String)
       (timeout : Nat),
       0 < timeout → c 0 = true →
       wait_for_healthy c g pid timeout = (false, [])) ∧
    (∀ (st : PMState) (env : DeployEnv) (old : Pod) (rest : List Pod)
       (ni di : String) (gpm hct : Nat) (journal : List DeployRecord)
       (newPod : Pod),
       env.cancelledTop 0 = false →
       env.createPod 0 = .ok newPod →
       (∀ j, env.cancelledHealth 0 j = false) →
       (∀ j p, env.getPod newPod.id j = .ok p → isHealthy p = false) →
       newPod.id ≠ old.id →
       ((rolling_deploy st env (old :: rest) ni di gpm hct
           journal).record.status = "failed" ∧
        (rolling_deploy st env (old :: rest) ni di gpm hct journal).pairs =
          [] ∧
        (rolling_deploy st env (old :: rest) ni di gpm hct
          journal).record.podIds = [] ∧
        Event.terminatePod newPod.id ∈
          (rolling_deploy st env (old :: rest) ni di gpm hct journal).trace ∧
        Event.terminatePod old.id ∉
          (rolling_deploy st env (old :: rest) ni di gpm hct journal).trace)) := by
  refine ⟨?_, ?_, ?_, ?_⟩
  · intro c g pid timeout hc hg
    have h := waitGo_not_healthy c g pid timeout hc hg 0
    simpa [wait_for_healthy] using h
  · intro c g pid timeout h
    obtain ⟨j, p, h5, hgj, hh⟩ := waitGo_healthy_reason c g pid timeout 0 h
    exact ⟨j, p, h5, hgj, (isHealthy_iff p).1 hh⟩
  · intro c g pid timeout ht hc0
    rw [wait_for_healthy, waitGo]
    simp [ht, hc0]
  · intro st env old rest ni di gpm hct journal newPod htop hcreate hch hg hne
    have hwait : wait_for_healthy (env.cancelledHealth 0)
        (env.getPod newPod.id) newPod.id hct =
        (false, List.replicate ((hct - 5 * 0 + 4) / 5)
          (Event.getPod newPod.id)) :=
      waitGo_not_healthy (env.cancelledHealth 0) (env.getPod newPod.id)
        newPod.id hct hch hg 0
    have hloop : deployLoop env ni di (gpm * 60) hct
        (old :: rest).length (old :: rest) 0 [] =
        { status := "failed",
          error := "New pod " ++ newPod.id ++ " failed health check",
          podIds := [], pairs := [],
          trace := [Event.stateChange old.id "CREATE_NEW" "",
              Event.createPod (old.name ++ "-v2-" ++ di) ni
                old.gpuDisplayName old.gpuCount,
              Event.stateChange old.id "HEALTH_CHECK" newPod.id] ++
            List.replicate ((hct - 5 * 0 + 4) / 5)
              (Event.getPod newPod.id) ++
            [Event.stateChange old.id "ROLLING_BACK" newPod.id,
             Event.terminatePod newPod.id] } := by
      rw [deployLoop]
      simp only [htop, Bool.false_eq_true, if_false, hcreate, hwait,
        Bool.not_false, if_pos]
      simp [rollbackEvents]
    have hrd : rolling_deploy st env (old :: rest) ni di gpm hct journal =
        { record :=
            { action := "rolling_deploy",
              status := "failed",
              error := "New pod " ++ newPod.id ++ " failed health check",
              oldImage := old.imageName,
              newImage := ni,
              podCount := (old :: rest).length,
              podIds := [] },
          pairs := [],
          trace := [Event.stateChange old.id "CREATE_NEW" "",
              Event.createPod (old.name ++ "-v2-" ++ di) ni
                old.gpuDisplayName old.gpuCount,
              Event.stateChange old.id "HEALTH_CHECK" newPod.id] ++
            List.replicate ((hct - 5 * 0 + 4) / 5)
              (Event.getPod newPod.id) ++
            [Event.stateChange old.id "ROLLING_BACK" newPod.id,
             Event.terminatePod newPod.id],
          journal := journal ++
            [{ action := "rolling_deploy",
               status := "failed",
               error := "New pod " ++ newPod.id ++ " failed health check",
               oldImage := old.imageName,
               newImage := ni,
               podCount := (old :: rest).length,
               podIds := [] }] } := by
      simp only [rolling_deploy, withBase_false, hloop]
    rw [hrd]
    refine ⟨rfl, rfl, rfl, ?_, ?_⟩
    · simp
    · simp [List.mem_replicate, hne]
      exact fun h => hne h.symm

/-- C1 (witness): with a 12-second timeout and a replacement pod that
never reports healthy, the loop polls exactly 3 times and the deploy over
one target ends `failed` with the replacement terminated and the old pod
untouched. -/
theorem wait_for_healthy_spec_witness :
    wait_for_healthy (fun _ => false) (c1Env.getPod "new0") "new0" 12 =
      (false, List.replicate 3 (Event.getPod "new0")) ∧
    (rolling_deploy ⟨false⟩ c1Env [wOld] "img2" "d" 0 12 []).record.status =
      "failed" ∧
    Event.terminatePod "new0" ∈
      (rolling_deploy ⟨false⟩ c1Env [wOld] "img2" "d" 0 12 []).trace ∧
    Event.terminatePod "old0" ∉
      (rolling_deploy ⟨false⟩ c1Env [wOld] "img2" "d" 0 12 []).trace := by
  obtain ⟨h1, -, -, h4⟩ := wait_for_healthy_spec
  have hg : ∀ (j : Nat) (p : Pod), c1Env.getPod "new0" j = .ok p →
      isHealthy p = false := by
    intro j p hp
    have hpw : p = wNew := by simpa [c1Env] using hp.symm
    subst hpw
    decide
  have ha := h1 (fun _ => false) (c1Env.getPod "new0") "new0" 12
    (fun _ => rfl) hg
  have hd := h4 ⟨false⟩ c1Env wOld [] "img2" "d" 0 12 [] wNew rfl rfl
    (fun _ => rfl) hg (by decide)
  exact ⟨ha, hd.1, hd.2.2.2.1, hd.2.2.2.2⟩

/-- Every event the health-check poll loop emits is a `get_pod` call on
the polled pod. -/
lemma waitGo_trace_events (c : Nat → Bool) (g : Nat → Except String Pod)
    (pid : String) (timeout : Nat) :
    ∀ j e, e ∈ (waitGo c g pid timeout j).2 → e = Event.getPod pid := by
  have main : ∀ n j, timeout - 5 * j ≤ n →
      ∀ e, e ∈ (waitGo c g pid timeout j).2 → e = Event.getPod pid := by
    intro n
    induction n with
    | zero =>
      intro j hj e he
      rw [waitGo] at he
      have h5 : ¬ 5 * j < timeout := by omega
      simp [h5] at he
    | succ n ih =>
      intro j hj e he
      rw [waitGo] at he
      by_cases h5 : 5 * j < timeout
      · simp only [if_pos h5] at he
        by_cases hcj : c j = true
        · simp [hcj] at he
        · simp only [Bool.not_eq_true] at hcj
          simp only [hcj, Bool.false_eq_true, if_false] at he
          cases hgj : g j with
          | error e2 =>
            simp only [hgj] at he
            rcases List.mem_cons.1 he with h | h
            · exact h
            · exact ih (j + 1) (by omega) e h
          | ok p =>
            simp only [hgj] at he
            by_cases hh : isHealthy p = true
            · simp [hh] at he
              exact he
            · simp only [Bool.not_eq_true] at hh
              simp only [hh, Bool.false_eq_true, if_false] at he
              rcases List.mem_cons.1 he with h | h
              · exact h
              · exact ih (j + 1) (by omega) e h
      · simp [h5] at he
  exact fun j => main (timeout - 5 * j) j le_rfl

/-- Every event the grace-period countdown loop emits is a countdown
callback. -/
lemma graceGo_events (c : Nat → Bool) :
    ∀ r t e, e ∈ graceGo c r t → ∃ m, e = Event.countdown m := by
  intro r
  induction r with
  | zero => intro t e he; simp [graceGo] at he
  | succ r ih =>
    intro t e he
    rw [graceGo] at he
    by_cases hc : c t = true
    · simp [hc] at he
    · simp only [Bool.not_eq_true] at hc
      simp only [hc, Bool.false_eq_true, if_false] at he
      rcases List.mem_cons.1 he with h | h
      · exact ⟨r + 1, h⟩
      · exact ih (t + 1) e h

/-- Rollback terminates each completed pair's new pod and resumes its old
pod at the original GPU count. -/
lemma rollbackEvents_mem (pairs : List (Pod × Pod)) (pr : Pod × Pod)
    (h : pr ∈ pairs) :
    Event.terminatePod pr.2.id ∈ rollbackEvents pairs ∧
    Event.resumePod pr.1.id pr.1.gpuCount ∈ rollbackEvents pairs := by
  constructor <;> [refine List.mem_flatMap.2 ⟨pr, h, ?_⟩;
    refine List.mem_flatMap.2 ⟨pr, h, ?_⟩] <;> simp

/-- Every Fleet API call rollback makes is on a pod of one of the rolled
back pairs. -/
lemma rollbackEvents_calls (pairs : List (Pod × Pod)) (pid : String) :
    ∀ e ∈ rollbackEvents pairs, clientCallOn pid e = true →
      ∃ pr ∈ pairs, pid = pr.1.id ∨ pid = pr.2.id := by
  intro e he hcall
  obtain ⟨pr, hpr, hin⟩ := List.mem_flatMap.1 he
  simp only [List.mem_cons, List.not_mem_nil, or_false] at hin
  rcases hin with h | h
  · subst h
    simp only [clientCallOn, beq_iff_eq] at hcall
    exact ⟨pr, hpr, Or.inr hcall.symm⟩
  · subst h
    simp only [clientCallOn, beq_iff_eq] at hcall
    exact ⟨pr, hpr, Or.inl hcall.symm⟩

/-- Every Fleet API call of a fully successful iteration's trace is on
the old pod or on its replacement. -/
lemma successStep_calls (env : DeployEnv) (ni di : String)
    (gsec hct total idx L : Nat) (old npod : Pod) (pid : String) :
    ∀ e ∈ successStep env ni di gsec hct total idx L old npod,
      clientCallOn pid e = true → pid = old.id ∨ pid = npod.id := by
  intro e he hcall
  rw [successStep] at he
  rcases List.mem_append.1 he with he1 | hB
  · rcases List.mem_append.1 he1 with he2 | hC
    · rcases List.mem_append.1 he2 with hA | hW
      · simp only [List.mem_cons, List.not_mem_nil, or_false] at hA
        rcases hA with h | h | h <;> subst h <;>
          simp [clientCallOn] at hcall
      · have hw := waitGo_trace_events (env.cancelledHealth idx)
          (env.getPod npod.id) npod.id hct 0 e hW
        subst hw
        simp only [clientCallOn, beq_iff_eq] at hcall
        exact Or.inr hcall.symm
    · rcases List.mem_cons.1 hC with h | hC2
      · subst h; simp [clientCallOn] at hcall
      rcases List.mem_append.1 hC2 with hG | hc0
      · obtain ⟨m, hm⟩ := graceGo_events (env.cancelledGrace idx) gsec 0 e hG
        subst hm; simp [clientCallOn] at hcall
      · simp only [List.mem_cons, List.not_mem_nil, or_false] at hc0
        subst hc0; simp [clientCallOn] at hcall
  · simp only [List.mem_cons, List.not_mem_nil, or_false] at hB
    rcases hB with h | h | h | h
    · subst h; simp [clientCallOn] at hcall
    · subst h
      simp only [clientCallOn, beq_iff_eq] at hcall
      exact Or.inl hcall.symm
    · subst h; simp [clientCallOn] at hcall
    · subst h; simp [clientCallOn] at hcall

/-- Every Fleet API call in the trace of a run of fully successful
iterations over `seg` is on one of those pods or their replacements. -/
lemma cleanPrefixTrace_calls (env : DeployEnv) (ni di : String)
    (gsec hct total : Nat) (np : Nat → Pod) (pid : String) :
    ∀ (seg : List Pod) (idx L : Nat),
      ∀ e ∈ cleanPrefixTrace env ni di gsec hct total np idx L seg,
        clientCallOn pid e = true →
        ∃ i < seg.length, pid = (seg.getD i dPod).id ∨ pid = (np (idx + i)).id := by
  intro seg
  induction seg with
  | nil => intro idx L e he; simp [cleanPrefixTrace] at he
  | cons old seg' ih =>
    intro idx L e he hcall
    rw [cleanPrefixTrace] at he
    rcases List.mem_append.1 he with h | h
    · rcases successStep_calls env ni di gsec hct total idx L old (np idx)
        pid e h hcall with h2 | h2
      · exact ⟨0, by simp, Or.inl (by simpa using h2)⟩
      · exact ⟨0, by simp, Or.inr (by simpa using h2)⟩
    · obtain ⟨i, hi, h2⟩ := ih (idx + 1) (L + 1) e h hcall
      refine ⟨i + 1, by simpa using Nat.succ_lt_succ hi, ?_⟩
      rcases h2 with h2 | h2
      · exact Or.inl (by simpa using h2)
      · exact Or.inr (by rw [show idx + (i + 1) = idx + 1 + i by omega]; exact h2)

/-- A run of `deployLoop` over a segment of fully successful iterations:
the loop advances past the segment, appending one completed pair per pod
and one `successStep` trace block per pod. -/
lemma deployLoop_cleanSeg (env : DeployEnv) (ni di : String)
    (gsec hct total : Nat) (np : Nat → Pod) :
    ∀ (seg rest : List Pod) (idx : Nat) (acc : List (Pod × Pod)),
      (∀ i, i < seg.length → env.cancelledTop (idx + i) = false) →
      (∀ i, i < seg.length → env.createPod (idx + i) = .ok (np (idx + i))) →
      (∀ i, i < seg.length →
        (wait_for_healthy (env.cancelledHealth (idx + i))
          (env.getPod (np (idx + i)).id) ((np (idx + i)).id) hct).1 = true) →
      (∀ i, i < seg.length → env.cancelledPost (idx + i) = false) →
      deployLoop env ni di gsec hct total (seg ++ rest) idx acc =
        prependTrace
          (cleanPrefixTrace env ni di gsec hct total np idx acc.length seg)
          (deployLoop env ni di gsec hct total rest (idx + seg.length)
            (acc ++ seg.zip ((List.range' idx seg.length).map np))) := by
  intro seg
  induction seg with
  | nil =>
    intro rest idx acc _ _ _ _
    simp [cleanPrefixTrace, prependTrace]
  | cons old seg' ih =>
    intro rest idx acc htop hok hhealth hpost
    have h0 : env.cancelledTop idx = false := by simpa using htop 0 (by simp)
    have hok0 : env.createPod idx = .ok (np idx) := by
      simpa using hok 0 (by simp)
    have hh0 : (wait_for_healthy (env.cancelledHealth idx)
        (env.getPod (np idx).id) ((np idx).id) hct).1 = true := by
      simpa using hhealth 0 (by simp)
    have hp0 : env.cancelledPost idx = false := by simpa using hpost 0 (by simp)
    rw [List.cons_append, deployLoop]
    simp only [h0, Bool.false_eq_true, if_false, hok0, hh0, Bool.not_true,
      hp0]
    rw [ih rest (idx + 1) (acc ++ [(old, np idx)])
      (fun i hi => by
        have h := htop (i + 1) (by simpa using Nat.succ_lt_succ hi)
        rw [show idx + 1 + i = idx + (i + 1) by omega]
        exact h)
      (fun i hi => by
        have h := hok (i + 1) (by simpa using Nat.succ_lt_succ hi)
        rw [show idx + 1 + i = idx + (i + 1) by omega]
        exact h)
      (fun i hi => by
        have h := hhealth (i + 1) (by simpa using Nat.succ_lt_succ hi)
        rw [show idx + 1 + i = idx + (i + 1) by omega]
        exact h)
      (fun i hi => by
        have h := hpost (i + 1) (by simpa using Nat.succ_lt_succ hi)
        rw [show idx + 1 + i = idx + (i + 1) by omega]
        exact h)]
    rw [cleanPrefixTrace]
    simp only [prependTrace, successStep, List.range'_succ, List.map_cons,
      List.zip_cons_cons, List.length_cons]
    rw [show idx + 1 + seg'.length = idx + (seg'.length + 1) by omega,
      show acc ++ [(old, np idx)] ++
          seg'.zip ((List.range' (idx + 1) seg'.length).map np) =
        acc ++ ((old, np idx) ::
          seg'.zip ((List.range' (idx + 1) seg'.length).map np)) by
        simp,
      show (acc ++ [(old, np idx)]).length = acc.length + 1 by simp]
    simp [List.append_assoc]

/-- The completed pairs of a clean run over the first `k` targets: the
pair for position `i < k` is the `i`-th old pod with its replacement. -/
lemma zip_take_mem (tp : List Pod) (k : Nat) (np : Nat → Pod)
    (hk : k ≤ tp.length) :
    ∀ i, i < k →
      (tp.getD i dPod, np i) ∈ (tp.take k).zip ((List.range' 0 k).map np) := by
  intro i hi
  rw [List.mem_iff_getElem]
  have hl1 : (tp.take k).length = k := by
    rw [List.length_take]
    omega
  have hl2 : ((List.range' 0 k).map np).length = k := by simp
  have hib : i < tp.length := by omega
  refine ⟨i, by simp [List.length_zip, hl1, hl2, hi], ?_⟩
  rw [List.getElem_zip]
  simp [List.getElem_take, List.getElem_map, List.getElem_range',
    List.getD_eq_getElem tp dPod hib, List.getElem?_eq_getElem hib]

/-- Conversely, every completed pair of a clean run over the first `k`
targets is the pair of some position `i < k`. -/
lemma zip_take_mem_inv (tp : List Pod) (k : Nat) (np : Nat → Pod)
    (hk : k ≤ tp.length) :
    ∀ pr ∈ (tp.take k).zip ((List.range' 0 k).map np),
      ∃ i, i < k ∧ pr = (tp.getD i dPod, np i) := by
  intro pr hpr
  rw [List.mem_iff_getElem] at hpr
  obtain ⟨i, hilen, hi⟩ := hpr
  have hl1 : (tp.take k).length = k := by
    rw [List.length_take]
    omega
  have hik : i < k := by
    simp only [List.length_zip, hl1, List.length_map, List.length_range',
      min_self] at hilen
    exact hilen
  have hib : i < tp.length := by omega
  refine ⟨i, hik, ?_⟩
  rw [← hi, List.getElem_zip]
  simp [List.getElem_take, List.getElem_map, List.getElem_range',
    List.getD_eq_getElem tp dPod hib, List.getElem?_eq_getElem hib]

/-- Every Fleet API call in the trace of the iteration cancelled after
its countdown is on the old pod or on its replacement. -/
lemma cancelGraceStepTrace_calls (env : DeployEnv) (ni di : String)
    (gsec hct idx : Nat) (old npod : Pod) (pid : String) :
    ∀ e ∈ cancelGraceStepTrace env ni di gsec hct idx old npod,
      clientCallOn pid e = true → pid = old.id ∨ pid = npod.id := by
  intro e he hcall
  rw [cancelGraceStepTrace] at he
  rcases List.mem_append.1 he with he1 | hT
  · rcases List.mem_append.1 he1 with he2 | hC
    · rcases List.mem_append.1 he2 with hA | hW
      · simp only [List.mem_cons, List.not_mem_nil, or_false] at hA
        rcases hA with h | h | h <;> subst h <;>
          simp [clientCallOn] at hcall
      · have hw := waitGo_trace_events (env.cancelledHealth idx)
          (env.getPod npod.id) npod.id hct 0 e hW
        subst hw
        simp only [clientCallOn, beq_iff_eq] at hcall
        exact Or.inr hcall.symm
    · rcases List.mem_cons.1 hC with h | hC2
      · subst h; simp [clientCallOn] at hcall
      rcases List.mem_append.1 hC2 with hG | hc0
      · obtain ⟨m, hm⟩ := graceGo_events (env.cancelledGrace idx) gsec 0 e hG
        subst hm; simp [clientCallOn] at hcall
      · simp only [List.mem_cons, List.not_mem_nil, or_false] at hc0
        subst hc0; simp [clientCallOn] at hcall
  · simp only [List.mem_cons, List.not_mem_nil, or_false] at hT
    subst hT
    simp only [clientCallOn, beq_iff_eq] at hcall
    exact Or.inr hcall.symm

/-- A rolling deploy whose first `k` iterations complete cleanly and
whose iteration `k` observes the cancellation flag after its countdown
loop: the run computes to the rolled-back outcome (record fields, pairs,
trace, journal). -/
lemma rolling_deploy_cancel_grace (st : PMState) (env : DeployEnv)
    (tp : List Pod) (ni di : String) (gpm hct : Nat)
    (journal : List DeployRecord) (k : Nat) (np : Nat → Pod)
    (hk : k < tp.length)
    (htop : ∀ i, i ≤ k → env.cancelledTop i = false)
    (hok : ∀ i, i ≤ k → env.createPod i = .ok (np i))
    (hh : ∀ i, i ≤ k → (wait_for_healthy (env.cancelledHealth i)
      (env.getPod (np i).id) ((np i).id) hct).1 = true)
    (hpost : ∀ i, i < k → env.cancelledPost i = false)
    (hpostk : env.cancelledPost k = true) :
    (rolling_deploy st env tp ni di gpm hct journal).record.status =
      "rolled_back" ∧
    (rolling_deploy st env tp ni di gpm hct journal).record.error =
      "Cancelled by user during grace period" ∧
    (rolling_deploy st env tp ni di gpm hct journal).record.podIds = [] ∧
    (rolling_deploy st env tp ni di gpm hct journal).pairs =
      (tp.take k).zip ((List.range' 0 k).map np) ∧
    (rolling_deploy st env tp ni di gpm hct journal).trace =
      cleanPrefixTrace env ni di (gpm * 60) hct tp.length np 0 0
        (tp.take k) ++
      (cancelGraceStepTrace env ni di (gpm * 60) hct k (tp.getD k dPod)
        (np k) ++
       rollbackEvents ((tp.take k).zip ((List.range' 0 k).map np))) := by
  have hlen : (tp.take k).length = k := by
    rw [List.length_take]
    omega
  have hloop := deployLoop_cleanSeg env ni di (gpm * 60) hct tp.length np
    (tp.take k) (tp.drop k) 0 []
    (fun i hi => by rw [hlen] at hi; simpa using htop i (le_of_lt hi))
    (fun i hi => by rw [hlen] at hi; simpa using hok i (le_of_lt hi))
    (fun i hi => by rw [hlen] at hi; simpa using hh i (le_of_lt hi))
    (fun i hi => by rw [hlen] at hi; simpa using hpost i hi)
  rw [List.take_append_drop] at hloop
  simp only [hlen, Nat.zero_add, List.nil_append, List.length_nil] at hloop
  have hdropk : tp.drop k = tp.getD k dPod :: tp.drop (k + 1) := by
    rw [List.getD_eq_getElem tp dPod hk]
    exact List.drop_eq_getElem_cons hk
  rw [hdropk] at hloop
  have hstep : deployLoop env ni di (gpm * 60) hct tp.length
      (tp.getD k dPod :: tp.drop (k + 1)) k
      ((tp.take k).zip ((List.range' 0 k).map np)) =
      { status := "rolled_back",
        error := "Cancelled by user during grace period",
        podIds := [],
        pairs := (tp.take k).zip ((List.range' 0 k).map np),
        trace := cancelGraceStepTrace env ni di (gpm * 60) hct k
            (tp.getD k dPod) (np k) ++
          rollbackEvents ((tp.take k).zip ((List.range' 0 k).map np)) } := by
    rw [deployLoop]
    simp only [htop k le_rfl, Bool.false_eq_true, if_false, hok k le_rfl,
      hh k le_rfl, Bool.not_true, hpostk, if_pos]
    simp [cancelGraceStepTrace, List.append_assoc]
  rw [hstep] at hloop
  refine ⟨?_, ?_, ?_, ?_, ?_⟩ <;>
    simp [rolling_deploy, withBase_false, hloop, prependTrace]

/-- A rolling deploy whose first `k` iterations complete cleanly and
which observes the cancellation flag at the top of iteration `k` (before
any work on that pod): the run computes to the rolled-back outcome. -/
lemma rolling_deploy_cancel_top (st : PMState) (env : DeployEnv)
    (tp : List Pod) (ni di : String) (gpm hct : Nat)
    (journal : List DeployRecord) (k : Nat) (np : Nat → Pod)
    (hk : k < tp.length)
    (htop : ∀ i, i < k → env.cancelledTop i = false)
    (htopk : env.cancelledTop k = true)
    (hok : ∀ i, i < k → env.createPod i = .ok (np i))
    (hh : ∀ i, i < k → (wait_for_healthy (env.cancelledHealth i)
      (env.getPod (np i).id) ((np i).id) hct).1 = true)
    (hpost : ∀ i, i < k → env.cancelledPost i = false) :
    (rolling_deploy st env tp ni di gpm hct journal).record.status =
      "rolled_back" ∧
    (rolling_deploy st env tp ni di gpm hct journal).record.error =
      "Cancelled by user" ∧
    (rolling_deploy st env tp ni di gpm hct journal).record.podIds = [] ∧
    (rolling_deploy st env tp ni di gpm hct journal).pairs =
      (tp.take k).zip ((List.range' 0 k).map np) ∧
    (rolling_deploy st env tp ni di gpm hct journal).trace =
      cleanPrefixTrace env ni di (gpm * 60) hct tp.length np 0 0
        (tp.take k) ++
      rollbackEvents ((tp.take k).zip ((List.range' 0 k).map np)) := by
  have hlen : (tp.take k).length = k := by
    rw [List.length_take]
    omega
  have hloop := deployLoop_cleanSeg env ni di (gpm * 60) hct tp.length np
    (tp.take k) (tp.drop k) 0 []
    (fun i hi => by rw [hlen] at hi; simpa using htop i hi)
    (fun i hi => by rw [hlen] at hi; simpa using hok i hi)
    (fun i hi => by rw [hlen] at hi; simpa using hh i hi)
    (fun i hi => by rw [hlen] at hi; simpa using hpost i hi)
  rw [List.take_append_drop] at hloop
  simp only [hlen, Nat.zero_add, List.nil_append, List.length_nil] at hloop
  have hdropk : tp.drop k = tp.getD k dPod :: tp.drop (k + 1) := by
    rw [List.getD_eq_getElem tp dPod hk]
    exact List.drop_eq_getElem_cons hk
  rw [hdropk] at hloop
  have hstep : deployLoop env ni di (gpm * 60) hct tp.length
      (tp.getD k dPod :: tp.drop (k + 1)) k
      ((tp.take k).zip ((List.range' 0 k).map np)) =
      { status := "rolled_back",
        error := "Cancelled by user",
        podIds := [],
        pairs := (tp.take k).zip ((List.range' 0 k).map np),
        trace :=
          rollbackEvents ((tp.take k).zip ((List.range' 0 k).map np)) } := by
    rw [deployLoop]
    simp only [htopk, if_pos]
  rw [hstep] at hloop
  refine ⟨?_, ?_, ?_, ?_, ?_⟩ <;>
    simp [rolling_deploy, withBase_false, hloop, prependTrace]

/-- Indexing into a `take` prefix with a default agrees with indexing
into the list. -/
lemma getD_take_eq (l : List Pod) (k i : Nat) (hik : i < k)
    (hil : i < l.length) :
    (l.take k).getD i dPod = l.getD i dPod := by
  rw [List.getD_eq_getElem _ dPod (by rw [List.length_take]; omega),
    List.getD_eq_getElem l dPod hil, List.getElem_take]

/-- C2: if the first `k` target pods migrate cleanly and cancellation is
observed while waiting out pod `k`'s grace period, then pod `k`'s
just-created replacement is terminated, every previously completed
(old, new) pair is rolled back (new pod terminated, old pod resumed at
its original GPU count), the final status is `rolled_back` with a
cancellation note, and no Fleet API call touches any pod other than
targets `0..k` and their replacements (in particular, targets after `k`
are untouched); the same rollback and `rolled_back` status result when
cancellation is observed at the top of iteration `k`, before any work on
that pod. -/
theorem rolling_deploy_cancellation (st : PMState) (env : DeployEnv)
    (tp : List Pod) (ni di : String) (gpm hct : Nat)
    (journal : List DeployRecord) (k : Nat) (np : Nat → Pod)
    (hk : k < tp.length) :
    (((∀ i, i ≤ k → env.cancelledTop i = false) ∧
      (∀ i, i ≤ k → env.createPod i = .ok (np i)) ∧
      (∀ i, i ≤ k → (wait_for_healthy (env.cancelledHealth i)
        (env.getPod (np i).id) ((np i).id) hct).1 = true) ∧
      (∀ i, i < k → env.cancelledPost i = false) ∧
      env.cancelledPost k = true) →
      ((rolling_deploy st env tp ni di gpm hct journal).record.status =
        "rolled_back" ∧
       (rolling_deploy st env tp ni di gpm hct journal).record.error =
         "Cancelled by user during grace period" ∧
       (rolling_deploy st env tp ni di gpm hct journal).pairs =
         (tp.take k).zip ((List.range' 0 k).map np) ∧
       Event.terminatePod ((np k).id) ∈
         (rolling_deploy st env tp ni di gpm hct journal).trace ∧
       (∀ i, i < k →
         Event.terminatePod ((np i).id) ∈
           (rolling_deploy st env tp ni di gpm hct journal).trace ∧
         Event.resumePod ((tp.getD i dPod).id) ((tp.getD i dPod).gpuCount) ∈
           (rolling_deploy st env tp ni di gpm hct journal).trace) ∧
       (∀ pid,
         (∀ i, i ≤ k → pid ≠ (tp.getD i dPod).id ∧ pid ≠ (np i).id) →
         ∀ e ∈ (rolling_deploy st env tp ni di gpm hct journal).trace,
           clientCallOn pid e = false))) ∧
    (((∀ i, i < k → env.cancelledTop i = false) ∧
      env.cancelledTop k = true ∧
      (∀ i, i < k → env.createPod i = .ok (np i)) ∧
      (∀ i, i < k → (wait_for_healthy (env.cancelledHealth i)
        (env.getPod (np i).id) ((np i).id) hct).1 = true) ∧
      (∀ i, i < k → env.cancelledPost i = false)) →
      ((rolling_deploy st env tp ni di gpm hct journal).record.status =
        "rolled_back" ∧
       (rolling_deploy st env tp ni di gpm hct journal).record.error =
         "Cancelled by user" ∧
       (rolling_deploy st env tp ni di gpm hct journal).pairs =
         (tp.take k).zip ((List.range' 0 k).map np) ∧
       (∀ i, i < k →
         Event.terminatePod ((np i).id) ∈
           (rolling_deploy st env tp ni di gpm hct journal).trace ∧
         Event.resumePod ((tp.getD i dPod).id) ((tp.getD i dPod).gpuCount) ∈
           (rolling_deploy st env tp ni di gpm hct journal).trace) ∧
       (∀ pid,
         (∀ i, i < k → pid ≠ (tp.getD i dPod).id ∧ pid ≠ (np i).id) →
         ∀ e ∈ (rolling_deploy st env tp ni di gpm hct journal).trace,
           clientCallOn pid e = false))) := by
  have hlen : (tp.take k).length = k := by
    rw [List.length_take]
    omega
  constructor
  · rintro ⟨htop, hok, hh, hpost, hpostk⟩
    obtain ⟨hs, herr, -, hpr, htr⟩ := rolling_deploy_cancel_grace st env tp
      ni di gpm hct journal k np hk htop hok hh hpost hpostk
    refine ⟨hs, herr, hpr, ?_, ?_, ?_⟩
    · rw [htr]
      refine List.mem_append.2 (Or.inr (List.mem_append.2 (Or.inl ?_)))
      rw [cancelGraceStepTrace]
      simp
    · intro i hi
      have hmem := zip_take_mem tp k np (le_of_lt hk) i hi
      obtain ⟨ht, hr⟩ := rollbackEvents_mem _ _ hmem
      exact ⟨by rw [htr]; exact List.mem_append.2 (Or.inr
          (List.mem_append.2 (Or.inr ht))),
        by rw [htr]; exact List.mem_append.2 (Or.inr
          (List.mem_append.2 (Or.inr hr)))⟩
    · intro pid hpid e he
      by_contra hc
      have hcall : clientCallOn pid e = true := by
        cases hcc : clientCallOn pid e
        · exact absurd hcc hc
        · rfl
      rw [htr] at he
      rcases List.mem_append.1 he with h1 | h2
      · obtain ⟨i, hilt, hcase⟩ := cleanPrefixTrace_calls env ni di (gpm * 60)
          hct tp.length np pid (tp.take k) 0 0 e h1 hcall
        rw [hlen] at hilt
        rcases hcase with hcase | hcase
        · rw [getD_take_eq tp k i hilt (by omega)] at hcase
          exact (hpid i (le_of_lt hilt)).1 hcase
        · rw [Nat.zero_add] at hcase
          exact (hpid i (le_of_lt hilt)).2 hcase
      · rcases List.mem_append.1 h2 with h2a | h2b
        · rcases cancelGraceStepTrace_calls env ni di (gpm * 60) hct k
            (tp.getD k dPod) (np k) pid e h2a hcall with hcase | hcase
          · exact (hpid k le_rfl).1 hcase
          · exact (hpid k le_rfl).2 hcase
        · obtain ⟨pr, hprm, hcase⟩ := rollbackEvents_calls _ pid e h2b hcall
          obtain ⟨i, hik2, hpreq⟩ := zip_take_mem_inv tp k np (le_of_lt hk)
            pr hprm
          subst hpreq
          rcases hcase with hcase | hcase
          · exact (hpid i (le_of_lt hik2)).1 hcase
          · exact (hpid i (le_of_lt hik2)).2 hcase
  · rintro ⟨htop, htopk, hok, hh, hpost⟩
    obtain ⟨hs, herr, -, hpr, htr⟩ := rolling_deploy_cancel_top st env tp
      ni di gpm hct journal k np hk htop htopk hok hh hpost
    refine ⟨hs, herr, hpr, ?_, ?_⟩
    · intro i hi
      have hmem := zip_take_mem tp k np (le_of_lt hk) i hi
      obtain ⟨ht, hr⟩ := rollbackEvents_mem _ _ hmem
      exact ⟨by rw [htr]; exact List.mem_append.2 (Or.inr ht),
        by rw [htr]; exact List.mem_append.2 (Or.inr hr)⟩
    · intro pid hpid e he
      by_contra hc
      have hcall : clientCallOn pid e = true := by
        cases hcc : clientCallOn pid e
        · exact absurd hcc hc
        · rfl
      rw [htr] at he
      rcases List.mem_append.1 he with h1 | h2
      · obtain ⟨i, hilt, hcase⟩ := cleanPrefixTrace_calls env ni di (gpm * 60)
          hct tp.length np pid (tp.take k) 0 0 e h1 hcall
        rw [hlen] at hilt
        rcases hcase with hcase | hcase
        · rw [getD_take_eq tp k i hilt (by omega)] at hcase
          exact (hpid i hilt).1 hcase
        · rw [Nat.zero_add] at hcase
          exact (hpid i hilt).2 hcase
      · obtain ⟨pr, hprm, hcase⟩ := rollbackEvents_calls _ pid e h2 hcall
        obtain ⟨i, hik2, hpreq⟩ := zip_take_mem_inv tp k np (le_of_lt hk)
          pr hprm
        subst hpreq
        rcases hcase with hcase | hcase
        · exact (hpid i hik2).1 hcase
        · exact (hpid i hik2).2 hcase

/-- C2 (witness): three targets, pod 0 fully migrated, cancellation
observed at pod 1's post-countdown check: status `rolled_back` with the
grace-period note, pod 1's replacement terminated, pod 0's pair rolled
back (its replacement terminated, its old pod resumed at 2 GPUs). -/
theorem rolling_deploy_cancellation_witness :
    (rolling_deploy ⟨false⟩ c2Env wTp "img2" "d" 0 5 []).record.status =
      "rolled_back" ∧
    (rolling_deploy ⟨false⟩ c2Env wTp "img2" "d" 0 5 []).record.error =
      "Cancelled by user during grace period" ∧
    Event.terminatePod "new1" ∈
      (rolling_deploy ⟨false⟩ c2Env wTp "img2" "d" 0 5 []).trace ∧
    Event.terminatePod "new0" ∈
      (rolling_deploy ⟨false⟩ c2Env wTp "img2" "d" 0 5 []).trace ∧
    Event.resumePod "old0" 2 ∈
      (rolling_deploy ⟨false⟩ c2Env wTp "img2" "d" 0 5 []).trace := by
  have h := (rolling_deploy_cancellation ⟨false⟩ c2Env wTp "img2" "d" 0 5 []
      1 wNp (by decide)).1
    ⟨fun i _ => rfl, fun i _ => rfl,
     fun i hi => by rw [wait_for_healthy, waitGo]; simp [c2Env, isHealthy],
     fun i hi => by interval_cases i <;> decide,
     rfl⟩
  have h0 := h.2.2.2.2.1 0 (by decide)
  exact ⟨h.1, h.2.1, h.2.2.2.1, h0.1, h0.2⟩

end PodManager
